import Mathlib

/-!
Shallow embedding of the Console-Wordle core (src/index.ts) and proofs
checking the natural-language specification against it.

Conventions of the embedding:
* A JS string is a `List Char`; `toUpperCase` is `List.map Char.toUpper`.
* The dictionary `validWords` (loaded from a file at startup, external to the
  core) is a parameter of every operation that reads it.
* A `Letter` object (`{character, colour}` in the source) is `ScoredLetter`;
  the colour strings are kept verbatim ("\x1b[32m" green = correct,
  "\x1b[33m" yellow = wrong position, "\x1b[0m" default = incorrect).
* `checkedGuess = new Array(5)` is an array of 5 holes; a JS array hole is
  `none`, a written slot is `some letter`.
* JS `Array.prototype.indexOf(x) !== -1` is list membership;
  `comparison[comparison.indexOf(x)] = '0'` with `indexOf` not finding `x`
  assigns to index -1, which changes no element: in the embedding
  `List.set` at `List.indexOf` (which is the length when absent) is the
  same no-op.
* `Set.add` / `Set.delete` on the letter sets are `List.insert` /
  `List.erase` on duplicate-free lists (only membership is ever observed).
-/

set_option autoImplicit false

namespace ConsoleWordle

/-- A scored character of a guess: `interface Letter` of src/index.ts
(lines 16-19), with its ANSI colour code standing for the accuracy. -/
structure ScoredLetter where
  character : Char
  colour : String
deriving Repr, DecidableEq

/-- One recorded guess: `Letter[]` of length 5 built by `checkCorrectness`;
`none` is a JS array hole (never produced on 5-letter letter inputs). -/
abbrev CheckedGuess := List (Option ScoredLetter)

/-- The mutable state of `class Game` (src/index.ts lines 24-29) for a
session whose solution is defined (the only sessions the game loop runs on). -/
structure Game where
  solution : List Char
  guesses : List CheckedGuess
  wrongLetters : List Char
  unusedLetters : List Char
  gameStatus : Nat
deriving Repr, DecidableEq

/-- The 26-letter alphabet used to initialise `unusedLetters`
(src/index.ts line 50). -/
def alphabet : List Char := String.toList "ABCDEFGHIJKLMNOPQRSTUVWXYZ"

/-- A fresh session with a given (defined) solution: the constructor state
after `new Game` succeeds (guesses = [], wrongLetters = empty set,
unusedLetters = alphabet, gameStatus = 0). -/
def mkGame (solution : List Char) : Game :=
  { solution := solution
    guesses := []
    wrongLetters := []
    unusedLetters := alphabet
    gameStatus := 0 }

/-- `const ZodValidWord = z.string().length(5).toUpperCase()` (line 22):
`safeParse` succeeds exactly when the input has length 5, and the parsed
data is the upper-cased input. -/
def ZodValidWordParse (guess : List Char) : Option (List Char) :=
  if guess.length = 5 then some (guess.map Char.toUpper) else none

/-- `guess.map(guessLetter => guessLetter.character).join('')`
(src/index.ts line 89): the character sequence of a recorded guess
(JS `join` renders an array hole as the empty string, hence `filterMap`). -/
def guessChars (g : CheckedGuess) : List Char :=
  g.filterMap (fun x =>
    match x with
    | some guessLetter => some guessLetter.character
    | none => none)

/-- `checkValidWord` (src/index.ts lines 86-96): Zod length-5 parse with
upper-casing, dictionary membership, and novelty against the recorded
guesses; every failure throws the one generic `Error('Invalid guess!')`. -/
def checkValidWord (validWords : List (List Char)) (guesses : List CheckedGuess)
    (guess : List Char) : Except String (List Char) :=
  let stringGuesses := guesses.map guessChars
  match ZodValidWordParse guess with
  | some data =>
      if data ∈ validWords ∧ data ∉ stringGuesses then
        Except.ok data
      else
        Except.error "Invalid guess!"
  | none => Except.error "Invalid guess!"

/-- Pass 1 of `checkCorrectness` (src/index.ts lines 110-117): walk the
guess by position; an exact match is recorded green and the matched slot of
the working copy of the solution is overwritten with the sentinel `'0'`. -/
def pass1 : Nat → List Char → List Char → CheckedGuess →
    List Char × CheckedGuess
  | _, [], comparison, checkedGuess => (comparison, checkedGuess)
  | i, c :: rest, comparison, checkedGuess =>
      if comparison[i]? = some c then
        pass1 (i + 1) rest (comparison.set i '0')
          (checkedGuess.set i (some { character := c, colour := "\x1b[32m" }))
      else
        pass1 (i + 1) rest comparison checkedGuess

/-- Pass 2 of `checkCorrectness` (src/index.ts lines 120-134): positions
whose comparison slot is not the sentinel are scored yellow when the letter
occurs somewhere in the working solution, otherwise scored default and the
letter is added to `wrongLetters`; in that same else branch the source runs
`comparison[comparison.indexOf(guess[i])] = '0'`, an assignment to index -1
(the letter is absent there), modelled by `List.set` at `List.indexOf`,
equally a no-op. Every guessed letter is deleted from `unusedLetters`.
Returns (checkedGuess, wrongLetters, unusedLetters, comparison). -/
def pass2 : Nat → List Char → List Char → CheckedGuess →
    List Char → List Char →
    CheckedGuess × List Char × List Char × List Char
  | _, [], comparison, checkedGuess, wrongLetters, unusedLetters =>
      (checkedGuess, wrongLetters, unusedLetters, comparison)
  | i, c :: rest, comparison, checkedGuess, wrongLetters, unusedLetters =>
      if comparison[i]? ≠ some '0' then
        if c ∈ comparison then
          pass2 (i + 1) rest comparison
            (checkedGuess.set i (some { character := c, colour := "\x1b[33m" }))
            wrongLetters (unusedLetters.erase c)
        else
          pass2 (i + 1) rest (comparison.set (comparison.indexOf c) '0')
            (checkedGuess.set i (some { character := c, colour := "\x1b[0m" }))
            (wrongLetters.insert c) (unusedLetters.erase c)
      else
        pass2 (i + 1) rest comparison checkedGuess wrongLetters
          (unusedLetters.erase c)

/-- `checkCorrectness` (src/index.ts lines 105-137): two-pass scoring of a
guess against the session solution; returns the checked guess and the
session with the guess appended and the letter sets updated. -/
def checkCorrectness (game : Game) (guess : List Char) :
    CheckedGuess × Game :=
  let comparison := game.solution
  let checkedGuess : CheckedGuess := List.replicate 5 none
  let p1 := pass1 0 guess comparison checkedGuess
  let p2 := pass2 0 guess p1.1 p1.2 game.wrongLetters game.unusedLetters
  (p2.1,
   { game with
      guesses := game.guesses ++ [p2.1]
      wrongLetters := p2.2.1
      unusedLetters := p2.2.2.1 })

/-- `latestGuessColours.every(val => val === '\x1b[32m')` over one recorded
guess (src/index.ts line 148-150); JS `every` skips array holes, hence a
hole counts as passing. -/
def allGreenColours (checkedGuess : CheckedGuess) : Bool :=
  checkedGuess.all (fun x =>
    match x with
    | some guessLetter => guessLetter.colour = "\x1b[32m"
    | none => true)

/-- `checkGameOver` (src/index.ts lines 145-158): status 1 (won) when the
guess number exceeds 1 and every colour of the latest guess is green;
status 2 (lost) when the guess number is at least 6 and not every colour is
green; status 0 (in progress) otherwise. With no recorded guess,
`at(-1)` is undefined and the colour list is `[]`, whose `every` is true. -/
def checkGameOver (guesses : List CheckedGuess) (guessNumber : Nat) : Nat :=
  let latestGuessAllGreen : Bool :=
    match guesses.getLast? with
    | some latestGuess => allGreenColours latestGuess
    | none => true
  if 1 < guessNumber ∧ latestGuessAllGreen = true then 1
  else if 6 ≤ guessNumber ∧ latestGuessAllGreen = false then 2
  else 0

/-- `getEndMessage` (src/index.ts lines 183-192). -/
def getEndMessage (solution : List Char) (status : Nat) (guessNumber : Nat) :
    String :=
  if status = 1 then
    "The word was " ++ String.mk solution ++ "! You got it in " ++
      toString guessNumber ++ " guesses."
  else if status = 2 then
    "So close! The word was " ++ String.mk solution ++ "."
  else
    "Invalid status code."

/-- One turn of `gameLoop` (src/index.ts lines 60-72): validate the raw
guess, score it, store the status from `checkGameOver`; a validation
failure is the thrown `'Invalid guess!'` that the loop catches. This is the
`submitGuess` operation of the specification (§4.4). -/
def submitGuess (validWords : List (List Char)) (game : Game)
    (guess : List Char) (guessNumber : Nat) : Except String Game :=
  match checkValidWord validWords game.guesses guess with
  | Except.error e => Except.error e
  | Except.ok data =>
      let scored := checkCorrectness game data
      Except.ok { scored.2 with gameStatus := checkGameOver scored.2.guesses guessNumber }

/-- `gameLoop` (src/index.ts lines 59-78) on a list of raw input lines:
an invalid guess is caught and the same guess number is re-prompted; after
a valid guess the loop continues with the next number while the status is
0 and stops (closing the interface) once it is terminal. -/
def gameLoop (validWords : List (List Char)) :
    List (List Char) → Nat → Game → Game
  | [], _, game => game
  | guess :: rest, guessNumber, game =>
      match submitGuess validWords game guess guessNumber with
      | Except.error _ => gameLoop validWords rest guessNumber game
      | Except.ok next =>
          if next.gameStatus = 0 then
            gameLoop validWords rest (guessNumber + 1) next
          else
            next

/-- The state built by `constructor(solution?)` (src/index.ts lines 40-51):
`#solution` may end up undefined, hence `Option`. -/
structure ConstructedGame where
  solution : Option (List Char)
  guesses : List CheckedGuess
  wrongLetters : List Char
  unusedLetters : List Char
  gameStatus : Nat
deriving Repr, DecidableEq

/-- `constructor(solution)` for a nonempty explicit solution (the truthy
branch, src/index.ts lines 41-46): the solution is validated like a guess;
on failure the `catch` block only logs the error (`console.error`),
construction continues normally and `#solution` is left undefined. No
exception reaches the caller and no random word is substituted. -/
def Game.construct (validWords : List (List Char)) (solution : List Char) :
    ConstructedGame :=
  let sol : Option (List Char) :=
    match checkValidWord validWords [] solution with
    | Except.ok w => some w
    | Except.error _ => none
  { solution := sol
    guesses := []
    wrongLetters := []
    unusedLetters := alphabet
    gameStatus := 0 }

/-- The specification's conservation metric (§8): how many positions of a
checked guess credit character `c` as `correct` or `wrong-position`. -/
def creditCount (checkedGuess : CheckedGuess) (c : Char) : Nat :=
  (checkedGuess.filter (fun x =>
    match x with
    | some guessLetter =>
        guessLetter.character = c ∧
          (guessLetter.colour = "\x1b[32m" ∨ guessLetter.colour = "\x1b[33m")
    | none => False)).length

end ConsoleWordle

namespace ConsoleWordle

/-! ## Theorems checking the specification's claims -/

/-- C1: scoring conservation with duplicate letters fails on the code.
The solution "CREPT" contains one 'E', yet scoring the guess "EAGLE"
credits 'E' twice as wrong-position: the sentinel overwrite of pass 2 sits
in the branch where `indexOf` returned -1 (a no-op), so a slot consumed by
a wrong-position credit is never overwritten and the same solution letter
is credited to two guessed positions. -/
theorem checkCorrectness_double_credits_single_letter :
    creditCount (checkCorrectness (mkGame (String.toList "CREPT"))
        (String.toList "EAGLE")).1 'E' = 2 ∧
    (String.toList "CREPT").count 'E' = 1 := by decide

/-- C2: the win-on-any-turn rule fails on the code at turn 1. Scoring the
guess "REACH" against the solution "REACH" marks all five letters correct,
yet `checkGameOver` at guess number 1 returns 0 (in progress), because the
win check requires `guessNumber > 1`. -/
theorem checkGameOver_no_win_on_turn_one :
    allGreenColours (checkCorrectness (mkGame (String.toList "REACH"))
        (String.toList "REACH")).1 = true ∧
    checkGameOver (checkCorrectness (mkGame (String.toList "REACH"))
        (String.toList "REACH")).2.guesses 1 = 0 := by decide

/-- C3: the WrongLetters soundness invariant fails on the code. With the
dictionary containing CRANE and EERIE, solution CRANE and the single
validated guess EERIE, the letter 'E' — present in the solution — is added
to `wrongLetters`: the solution's only 'E' is consumed by the exact match
at position 4, so the surplus 'E's of the guess take the incorrect branch,
which adds the letter to the set. -/
theorem wrongLetters_gains_solution_letter :
    checkValidWord [String.toList "CRANE", String.toList "EERIE"] []
        (String.toList "EERIE") = Except.ok (String.toList "EERIE") ∧
    ('E' ∈ (gameLoop [String.toList "CRANE", String.toList "EERIE"]
        [String.toList "EERIE"] 1 (mkGame (String.toList "CRANE"))).wrongLetters) ∧
    'E' ∈ String.toList "CRANE" :=
  ⟨rfl, by decide, by decide⟩

/-- C4 (counterexample): a session that has already been won does not
refuse a further guess. After winning with REACH at guess number 2
(status 1), submitting the fresh valid word SNOUT at guess number 6 is
accepted — no failure of any kind — and the status changes from 1 (won) to
2 (lost). -/
def dictC4 : List (List Char) := [String.toList "REACH", String.toList "SNOUT"]

/-- The session after winning with REACH at guess number 2. -/
def wonGameC4 : Game :=
  ((submitGuess dictC4 (mkGame (String.toList "REACH"))
      (String.toList "REACH") 2).toOption).getD (mkGame (String.toList "REACH"))

theorem submitGuess_after_win_accepted_and_status_changes :
    wonGameC4.gameStatus = 1 ∧
    (submitGuess dictC4 wonGameC4 (String.toList "SNOUT") 6).toOption.map
      (fun g => g.gameStatus) = some 2 := by decide

/-- C4 (amended): terminal-status stability holds only through the game
loop's control flow: once a processed guess drives the status to a nonzero
(terminal) value, `gameLoop` ignores every remaining input line and returns
that state, so within a run the status never changes after becoming
terminal. (There is no `GameAlreadyOverError`: `submitGuess` itself never
consults the status, as the counterexample shows.) -/
theorem gameLoop_stops_after_terminal (validWords : List (List Char))
    (guess : List Char) (rest : List (List Char)) (guessNumber : Nat)
    (game next : Game)
    (hok : submitGuess validWords game guess guessNumber = Except.ok next)
    (hterm : next.gameStatus ≠ 0) :
    gameLoop validWords (guess :: rest) guessNumber game = next := by
  simp [gameLoop, hok, hterm]

theorem gameLoop_stops_after_terminal_witness :
    gameLoop dictC4 [String.toList "REACH", String.toList "SNOUT"] 2
      (mkGame (String.toList "REACH")) = wonGameC4 :=
  gameLoop_stops_after_terminal dictC4 (String.toList "REACH")
    [String.toList "SNOUT"] 2 (mkGame (String.toList "REACH")) wonGameC4
    rfl (by decide)

/-- C5: an invalid explicit solution is silently swallowed. Constructing a
game with the explicit solution "APE" (which fails the guess validation)
reports nothing to the caller: the catch block only logs, construction
completes normally, and the session is built with an undefined solution —
not an `InvalidSolutionError`, and not a random fallback either. -/
theorem construct_swallows_invalid_solution :
    checkValidWord [String.toList "REACH"] [] (String.toList "APE") =
      Except.error "Invalid guess!" ∧
    Game.construct [String.toList "REACH"] (String.toList "APE") =
      { solution := none, guesses := [], wrongLetters := [],
        unusedLetters := alphabet, gameStatus := 0 } :=
  ⟨rfl, by decide⟩

/-- C6 (counterexample): the validator's error kinds are not
distinguishable. "APE" fails by length and "AAAAA" fails by dictionary
membership, yet `checkValidWord` produces the identical generic error for
both — there are no separate LengthError and UnknownWordError kinds. -/
theorem checkValidWord_error_kinds_indistinguishable :
    (String.toList "APE").length ≠ 5 ∧
    ((String.toList "AAAAA").length = 5 ∧
      (String.toList "AAAAA").map Char.toUpper ∉ [String.toList "REACH"]) ∧
    checkValidWord [String.toList "REACH"] [] (String.toList "APE") =
      checkValidWord [String.toList "REACH"] [] (String.toList "AAAAA") :=
  ⟨by decide, ⟨by decide, by decide⟩, rfl⟩

/-- C6 (amended): the validator fails exactly when the normalized input's
length is not 5, or the normalized input is not in the dictionary, or its
character sequence already appears in the recorded guesses — but every
failure carries the same single generic error value. -/
theorem checkValidWord_failure_single_kind (validWords : List (List Char))
    (guesses : List CheckedGuess) (guess : List Char) :
    (checkValidWord validWords guesses guess = Except.error "Invalid guess!" ↔
      (guess.length ≠ 5 ∨ guess.map Char.toUpper ∉ validWords ∨
        guess.map Char.toUpper ∈ guesses.map guessChars)) ∧
    (∀ e, checkValidWord validWords guesses guess = Except.error e →
      e = "Invalid guess!") := by
  by_cases hlen : guess.length = 5
  · by_cases hdict : guess.map Char.toUpper ∈ validWords
    · by_cases hdup : guess.map Char.toUpper ∈ guesses.map guessChars
      · simp [checkValidWord, ZodValidWordParse, hlen, hdict, hdup]
      · simp [checkValidWord, ZodValidWordParse, hlen, hdict, hdup]
    · simp [checkValidWord, ZodValidWordParse, hlen, hdict]
  · simp [checkValidWord, ZodValidWordParse, hlen]

theorem checkValidWord_failure_single_kind_witness :
    checkValidWord [String.toList "REACH"] [] (String.toList "APE") =
      Except.error "Invalid guess!" :=
  (checkValidWord_failure_single_kind [String.toList "REACH"] []
      (String.toList "APE")).1.mpr (Or.inl (by decide))

/-- C7: validator success. When the raw input has length 5, its uppercase
normalization is in the dictionary and has not been guessed before,
`checkValidWord` returns exactly that normalized uppercase string; and
every accepted guess has length 5 and belongs to the dictionary. (The
embedding is a pure function of the dictionary, the recorded guesses and
the input, mirroring that the source method reads but never writes session
state.) -/
theorem checkValidWord_success_normalized (validWords : List (List Char))
    (guesses : List CheckedGuess) (guess : List Char) :
    (guess.length = 5 → guess.map Char.toUpper ∈ validWords →
      guess.map Char.toUpper ∉ guesses.map guessChars →
      checkValidWord validWords guesses guess =
        Except.ok (guess.map Char.toUpper)) ∧
    (∀ w, checkValidWord validWords guesses guess = Except.ok w →
      w.length = 5 ∧ w ∈ validWords) := by
  constructor
  · intro hlen hdict hnew
    simp [checkValidWord, ZodValidWordParse, hlen, hdict, hnew]
  · intro w hw
    by_cases hlen : guess.length = 5
    · by_cases hdict : guess.map Char.toUpper ∈ validWords
      · by_cases hdup : guess.map Char.toUpper ∈ guesses.map guessChars
        · simp [checkValidWord, ZodValidWordParse, hlen, hdict, hdup] at hw
        · simp [checkValidWord, ZodValidWordParse, hlen, hdict, hdup] at hw
          subst hw
          exact ⟨by simp [hlen], hdict⟩
      · simp [checkValidWord, ZodValidWordParse, hlen, hdict] at hw
    · simp [checkValidWord, ZodValidWordParse, hlen] at hw

theorem checkValidWord_success_normalized_witness :
    checkValidWord [String.toList "REACH"] [] (String.toList "reach") =
      Except.ok ((String.toList "reach").map Char.toUpper) :=
  (checkValidWord_success_normalized [String.toList "REACH"] []
      (String.toList "reach")).1 (by decide) (by decide) (by decide)

/-- C8: loss and continue rules, with the win rule checked first. For a
history ending in a latest scored guess: not all correct and guess number
at least 6 gives lost (2); not all correct and guess number below 6 gives
in progress (0); all correct at guess number at least 6 gives won (1),
because the win rule is evaluated before the loss rule. -/
theorem checkGameOver_loss_continue_win_priority (prev : List CheckedGuess)
    (latest : CheckedGuess) (guessNumber : Nat) :
    (allGreenColours latest = false → 6 ≤ guessNumber →
      checkGameOver (prev ++ [latest]) guessNumber = 2) ∧
    (allGreenColours latest = false → guessNumber < 6 →
      checkGameOver (prev ++ [latest]) guessNumber = 0) ∧
    (allGreenColours latest = true → 6 ≤ guessNumber →
      checkGameOver (prev ++ [latest]) guessNumber = 1) := by
  have hlast : (prev ++ [latest]).getLast? = some latest := by
    simp [List.getLast?_concat]
  refine ⟨?_, ?_, ?_⟩ <;> intro h1 h2 <;>
    simp [checkGameOver, hlast, h1] <;> omega

theorem checkGameOver_loss_continue_win_priority_witness :
    checkGameOver ([] ++ [(checkCorrectness (mkGame (String.toList "REACH"))
        (String.toList "SNOUT")).1]) 6 = 2 :=
  (checkGameOver_loss_continue_win_priority [] _ 6).1 (by decide) (by decide)

/-- C9: end-message formatting. Status 1 yields the win message with the
solution and the guess number, status 2 yields the loss message with the
solution, and any other status yields the invalid-status message; the
embedding is a pure function of its inputs, mirroring that the source
method reads only the solution. -/
theorem getEndMessage_formats (solution : List Char)
    (guessNumber status : Nat) :
    getEndMessage solution 1 guessNumber =
      "The word was " ++ String.mk solution ++ "! You got it in " ++
        toString guessNumber ++ " guesses." ∧
    getEndMessage solution 2 guessNumber =
      "So close! The word was " ++ String.mk solution ++ "." ∧
    (status ≠ 1 → status ≠ 2 →
      getEndMessage solution status guessNumber = "Invalid status code.") := by
  refine ⟨rfl, rfl, ?_⟩
  intro h1 h2
  simp [getEndMessage, h1, h2]

theorem getEndMessage_formats_witness :
    getEndMessage (String.toList "REACH") 0 3 = "Invalid status code." :=
  (getEndMessage_formats (String.toList "REACH") 3 0).2.2 (by decide) (by decide)

/-- C10: with an empty guess history, `at(-1)` is undefined, the colour
list is empty, and its `every` is vacuously true: `checkGameOver` returns
1 (won) for every guess number of at least 2, and 0 (in progress) at guess
number 1. -/
theorem checkGameOver_empty_history (guessNumber : Nat) :
    (2 ≤ guessNumber → checkGameOver [] guessNumber = 1) ∧
    (guessNumber = 1 → checkGameOver [] guessNumber = 0) := by
  constructor
  · intro h
    simp only [checkGameOver, List.getLast?]
    have : 1 < guessNumber := h
    simp [this]
  · intro h
    subst h
    decide

theorem checkGameOver_empty_history_witness :
    checkGameOver [] 3 = 1 :=
  (checkGameOver_empty_history 3).1 (by decide)

end ConsoleWordle
